import Mathlib

/-!
# Shallow embedding of the solarapp estimation engine

Source: `src/src/App.js` (the React estimation logic: `findIncentives`,
`calculateIncentives`, `handleSubmit`, `processHistoricalWeatherData`) and
`src/unnamed/part_000` (the express `/api/estimate` endpoint).

Modelling conventions:
* JavaScript numbers are modelled by `JSVal`: an exact rational together with
  the special values `Infinity`, `-Infinity`, `NaN` and `undefined` (the last
  arises from reading an absent JSON property).  Arithmetic on finite values is
  exact rational arithmetic; IEEE-754 rounding and overflow are not modelled
  (they do not affect which branch of any conditional in this program is
  taken for the inputs the claims quantify over).
* `Math.round` is round-half-towards-positive-infinity, which coincides with
  Mathlib's `round` on rationals; `Math.ceil` is `Int.ceil`; `toFixed(d)`
  rounds ties towards the larger integer (ECMA-262), again `round`.
* The React `setX` state setters are modelled by fields of an `AppState`
  record returned by the pure function `handleSubmit`; a thrown exception
  reaching the outer `catch` is modelled by the early return of the state
  accumulated so far with the `error` field set to the exception's message.
  The message text of an engine `TypeError` is modelled after V8's wording;
  only its presence, never its content, is relied on for those two cases.
* `parseFloat(annualConsumption)` is assumed to parse to a number, so the
  consumption input is taken as a rational directly.
* The calendar month of a weather sample (`new Date(day.dt*1000).getMonth()`)
  is computed by the JavaScript `Date` library from the timestamp; the sample
  in the model carries that derived month directly as a `Fin 12`.
-/

/-- A JavaScript number-or-undefined value. -/
inductive JSVal where
  | fin (q : ℚ)
  | posInf
  | negInf
  | nan
  | undefined
deriving DecidableEq, Repr

namespace JSVal

/-- `ToNumber` coercion applied to both operands of an arithmetic operator:
`undefined` becomes `NaN`. -/
def toNum : JSVal → JSVal
  | undefined => nan
  | v => v

/-- JavaScript `+` on numbers. -/
def jsAdd (a b : JSVal) : JSVal :=
  match a.toNum, b.toNum with
  | fin x, fin y => fin (x + y)
  | fin _, posInf => posInf
  | fin _, negInf => negInf
  | posInf, fin _ => posInf
  | negInf, fin _ => negInf
  | posInf, posInf => posInf
  | negInf, negInf => negInf
  | posInf, negInf => nan
  | negInf, posInf => nan
  | _, _ => nan

/-- JavaScript `-` on numbers. -/
def jsSub (a b : JSVal) : JSVal :=
  match a.toNum, b.toNum with
  | fin x, fin y => fin (x - y)
  | fin _, posInf => negInf
  | fin _, negInf => posInf
  | posInf, fin _ => posInf
  | negInf, fin _ => negInf
  | posInf, negInf => posInf
  | negInf, posInf => negInf
  | posInf, posInf => nan
  | negInf, negInf => nan
  | _, _ => nan

/-- JavaScript `*` on numbers. -/
def jsMul (a b : JSVal) : JSVal :=
  match a.toNum, b.toNum with
  | fin x, fin y => fin (x * y)
  | fin x, posInf => if 0 < x then posInf else if x < 0 then negInf else nan
  | fin x, negInf => if 0 < x then negInf else if x < 0 then posInf else nan
  | posInf, fin y => if 0 < y then posInf else if y < 0 then negInf else nan
  | negInf, fin y => if 0 < y then negInf else if y < 0 then posInf else nan
  | posInf, posInf => posInf
  | negInf, negInf => posInf
  | posInf, negInf => negInf
  | negInf, posInf => negInf
  | _, _ => nan

/-- JavaScript `/` on numbers.  Division of a nonzero finite value by zero
yields a signed infinity; `0 / 0` yields `NaN`. -/
def jsDiv (a b : JSVal) : JSVal :=
  match a.toNum, b.toNum with
  | fin x, fin y =>
      if y = 0 then (if 0 < x then posInf else if x < 0 then negInf else nan)
      else fin (x / y)
  | fin _, posInf => fin 0
  | fin _, negInf => fin 0
  | posInf, fin y => if 0 ≤ y then posInf else negInf
  | negInf, fin y => if 0 ≤ y then negInf else posInf
  | _, _ => nan

/-- JavaScript `>` on numbers (any comparison involving `NaN` is false). -/
def jsGt (a b : JSVal) : Bool :=
  match a.toNum, b.toNum with
  | fin x, fin y => decide (y < x)
  | posInf, fin _ => true
  | fin _, negInf => true
  | posInf, negInf => true
  | _, _ => false

/-- `Math.round`: round half towards positive infinity on finite values. -/
def jsRound : JSVal → JSVal
  | fin q => fin (round q : ℤ)
  | posInf => posInf
  | negInf => negInf
  | _ => nan

/-- `Number.prototype.toFixed(d)` for the values this program prints. -/
def jsToFixed (d : ℕ) : JSVal → String
  | fin q =>
      let n : ℤ := round (q * (10 : ℚ) ^ d)
      let frac := toString (n.natAbs % 10 ^ d)
      let pad := String.mk (List.replicate (d - frac.length) '0')
      (if n < 0 then "-" else "") ++ toString (n.natAbs / 10 ^ d) ++ "." ++ pad ++ frac
  | posInf => "Infinity"
  | negInf => "-Infinity"
  | _ => "NaN"

end JSVal

open JSVal

/-- Reading the optional `ac_annual` JSON property: absent means `undefined`. -/
def optToJS : Option ℚ → JSVal
  | some q => .fin q
  | none => .undefined

/-! ## Incentive catalog and matcher (`incentivesDatabase`, `findIncentives`,
`calculateIncentives`) -/

/-- One record of the mock incentive database.  The `type` discriminator is a
string, exactly as in the source. -/
structure Incentive where
  state : String
  type : String
  amount : ℚ
  description : String
deriving DecidableEq, Repr

/-- The module-level `incentivesDatabase` constant. -/
def incentivesDatabase : List Incentive :=
  [ { state := "CA", type := "rebate", amount := 1000,
      description := "California Solar Initiative Rebate" },
    { state := "CA", type := "taxCredit", amount := 30/100,
      description := "Federal Solar Investment Tax Credit" },
    { state := "NY", type := "rebate", amount := 5000,
      description := "NY-Sun Incentive Program" },
    { state := "NY", type := "taxCredit", amount := 25/100,
      description := "New York State Solar Equipment Tax Credit" } ]

/-- `findIncentives(state)`: filter the catalog by exact equality on the
state code. -/
def findIncentives (st : String) : List Incentive :=
  incentivesDatabase.filter (fun incentive => incentive.state = st)

/-- An incentive together with its `appliedAmount` (spread record
`{...incentive, appliedAmount}` in the source). -/
structure AppliedIncentive where
  incentive : Incentive
  appliedAmount : JSVal
deriving DecidableEq, Repr

/-- The `if/else if` chain computing `incentiveAmount` inside
`calculateIncentives`; a `type` matching neither branch leaves the variable
`undefined`. -/
def incentiveAmount (installationCost : ℚ) (incentive : Incentive) : JSVal :=
  if incentive.type = "rebate" then .fin incentive.amount
  else if incentive.type = "taxCredit" then .fin (installationCost * incentive.amount)
  else .undefined

/-- `calculateIncentives(installationCost, state)`: map over the matching
records producing `appliedIncentives` while accumulating `totalIncentives`
(which starts at the number `0`). -/
def calculateIncentives (installationCost : ℚ) (st : String) :
    List AppliedIncentive × JSVal :=
  (findIncentives st).foldl
    (fun acc incentive =>
      let amt := incentiveAmount installationCost incentive
      (acc.1 ++ [⟨incentive, amt⟩], jsAdd acc.2 amt))
    ([], .fin 0)

/-! ## Sizing and financial model (locals of `handleSubmit`) -/

/-- `averageSystemEfficiency = 0.75`. -/
def averageSystemEfficiency : ℚ := 75/100

/-- `averageSunHoursPerDay = 4`. -/
def averageSunHoursPerDay : ℚ := 4

/-- `averageCostPerWatt = 2.77`. -/
def averageCostPerWatt : ℚ := 277/100

/-- `averageElectricityRate = 0.14`. -/
def averageElectricityRate : ℚ := 14/100

/-- `panelWattage = 350`. -/
def panelWattage : ℚ := 350

/-- `systemSizeKW = parseFloat(annualConsumption) / 365 / averageSunHoursPerDay
/ averageSystemEfficiency`, with the two constants taken as parameters. -/
def systemSizeKW (annualConsumption sunHoursPerDay efficiency : ℚ) : ℚ :=
  annualConsumption / 365 / sunHoursPerDay / efficiency

/-- `estimatedCost = systemSizeKW * 1000 * averageCostPerWatt`. -/
def estimatedCost (systemSizeKW costPerWatt : ℚ) : ℚ :=
  systemSizeKW * 1000 * costPerWatt

/-- `paybackPeriod = annualSavings > 0 ? estimatedCost / annualSavings :
Infinity` (source line 195). -/
def paybackPeriodOf (estimatedCost : ℚ) (annualSavings : JSVal) : JSVal :=
  if jsGt annualSavings (.fin 0) then jsDiv (.fin estimatedCost) annualSavings
  else .posInf

/-- `adjustedPaybackPeriod = adjustedCost / annualSavings` (source line 210:
no guard on the sign of the savings). -/
def adjustedPaybackPeriodOf (adjustedCost annualSavings : JSVal) : JSVal :=
  jsDiv adjustedCost annualSavings

/-! ## Climate aggregator (`processHistoricalWeatherData`) -/

/-- One daily record of the historical weather response: the calendar month
derived from `day.dt` by the `Date` library, `day.temp.day` and `day.uvi`. -/
structure DaySample where
  month : Fin 12
  temp : ℚ
  uvi : ℚ
deriving DecidableEq, Repr

/-- One of the twelve accumulators `{ temperature: 0, solarRadiation: 0,
count: 0 }`. -/
structure MonthAccum where
  temperature : ℚ
  solarRadiation : ℚ
  count : ℕ
deriving DecidableEq, Repr

/-- The body of the `forEach`: add one day's values to its month's
accumulator. -/
def addDay (acc : List MonthAccum) (day : DaySample) : List MonthAccum :=
  let old := acc.getD day.month.val ⟨0, 0, 0⟩
  acc.set day.month.val
    ⟨old.temperature + day.temp, old.solarRadiation + day.uvi, old.count + 1⟩

/-- The month-name table used by both the chart rows and the climate
summary. -/
def monthNames : List String :=
  ["Jan", "Feb", "Mar", "Apr", "May", "Jun",
   "Jul", "Aug", "Sep", "Oct", "Nov", "Dec"]

/-- `x.toFixed(1)` parsed back as an exact rational: round to one decimal
place, ties towards the larger value (ECMA-262 `toFixed`). -/
def roundTo1 (q : ℚ) : ℚ := (round (q * 10) : ℤ) / 10

/-- One output row of the climate summary.  The source stores the rounded
mean as the decimal string `toFixed(1)` when the month has samples and the
number `0` otherwise; the model keeps the exact numeric value of either. -/
structure MonthRow where
  month : String
  temperature : ℚ
  solarRadiation : ℚ
deriving DecidableEq, Repr

/-- `processHistoricalWeatherData(dailyData)`: twelve zeroed accumulators, a
single pass over the samples, then one row per calendar month Jan→Dec with
`sum/count` rounded to one decimal when `count > 0` and `0` otherwise. -/
def processHistoricalWeatherData (dailyData : List DaySample) : List MonthRow :=
  let monthlyData := dailyData.foldl addDay (List.replicate 12 ⟨0, 0, 0⟩)
  (List.range 12).map (fun index =>
    let m := monthlyData.getD index ⟨0, 0, 0⟩
    { month := monthNames.getD index ""
      temperature := if m.count > 0 then roundTo1 (m.temperature / m.count) else 0
      solarRadiation := if m.count > 0 then roundTo1 (m.solarRadiation / m.count) else 0 })

/-! ## Orchestration (`handleSubmit`) -/

/-- The user inputs consumed by `handleSubmit` (the address, the parsed
annual consumption, and the two sliders, which only feed the provider URL). -/
structure EstimateInput where
  address : String
  annualConsumption : ℚ
  orientation : ℤ
  tilt : ℤ
deriving DecidableEq, Repr

/-- The `outputs` object of the PVWatts response; either field may be
absent. -/
structure NrelOutputs where
  ac_annual : Option ℚ
  ac_monthly : Option (List ℚ)
deriving DecidableEq, Repr

/-- The PVWatts response body: an (`errors` array or absent, both modelled by
a possibly empty list, since both skip the throw) and an optional `outputs`
object. -/
structure NrelResponse where
  errors : List String
  outputs : Option NrelOutputs
deriving DecidableEq, Repr

/-- The current-weather response shape tested on source line 238: `main`
(carrying `temp`), the `weather` array (carrying `description`s) and `clouds`
(carrying `all`). -/
structure WeatherJson where
  mainTemp : Option ℚ
  weatherDescs : List String
  cloudsAll : Option ℚ
deriving DecidableEq, Repr

/-- The one-call historical response: an optional `daily` array. -/
structure HistJson where
  daily : Option (List DaySample)
deriving DecidableEq, Repr

/-- The outcome of each external fetch: `.error msg` models a rejected
`fetch`/`json()` promise whose exception message is `msg`. -/
structure Collaborators where
  geocode : Except String (List (ℚ × ℚ))
  nrel : Except String NrelResponse
  weather : Except String WeatherJson
  historical : Except String HistJson

/-- The current-weather card contents (`setWeatherData`). -/
structure WeatherView where
  temperature : ℚ
  description : String
  cloudCover : ℚ
deriving DecidableEq, Repr

/-- One chart row `{ name: monthNames[index], production: Math.round(value) }`;
the name is absent when the index runs past the twelve-entry name table. -/
structure ChartRow where
  name : Option String
  production : ℤ
deriving DecidableEq, Repr

/-- `chartData = nrelData.outputs.ac_monthly.map((value, index) => ...)`. -/
def chartRows (acMonthly : List ℚ) : List ChartRow :=
  acMonthly.mapIdx (fun index value => ⟨monthNames.get? index, round value⟩)

/-- The `costEstimate` record set on source lines 220–231 (fields rounded or
formatted exactly where the source rounds or formats them). -/
structure CostEstimate where
  installationCost : ℤ
  adjustedInstallationCost : JSVal
  paybackPeriod : String
  adjustedPaybackPeriod : String
  annualSavings : JSVal
  systemSizeKW : String
  recommendedPanels : ℤ
  recommendedSystemSize : String
  recommendedProduction : JSVal
  totalIncentives : JSVal
deriving DecidableEq, Repr

/-- The React state fields that `handleSubmit` writes, as delivered to the
presentation layer at the end of one submission. -/
structure AppState where
  estimate : Option JSVal
  monthlyData : List ChartRow
  weatherData : Option WeatherView
  costEstimate : Option CostEstimate
  mapCoordinates : Option (ℚ × ℚ)
  historicalWeather : Option (List MonthRow)
  incentives : List AppliedIncentive
  error : Option String
deriving DecidableEq, Repr

/-- The inner best-effort current-weather branch (its own `try`/`catch` plus
the shape check of source line 238). -/
def weatherViewOf : Except String WeatherJson → Option WeatherView
  | .error _ => none
  | .ok w =>
    match w.mainTemp, w.weatherDescs, w.cloudsAll with
    | some t, d :: _, some c => some ⟨t, d, c⟩
    | _, _, _ => none

/-- The inner best-effort historical-weather branch (its own `try`/`catch`
plus the `historicalData.daily` check). -/
def historicalOf : Except String HistJson → Option (List MonthRow)
  | .error _ => none
  | .ok h =>
    match h.daily with
    | some dailyData => some (processHistoricalWeatherData dailyData)
    | none => none

/-- `address.split(',')` on the underlying character list: split at every
comma, keeping empty segments, as the JavaScript method does. -/
def splitOnComma : List Char → List (List Char)
  | [] => [[]]
  | c :: cs =>
    if c = ',' then [] :: splitOnComma cs
    else
      match splitOnComma cs with
      | [] => [[c]]
      | h :: t => (c :: h) :: t

/-- `String.prototype.trim()`: strip whitespace from both ends. -/
def jsTrim (l : List Char) : List Char :=
  ((l.dropWhile Char.isWhitespace).reverse.dropWhile Char.isWhitespace).reverse

/-- `state = address.split(',').pop().trim()` (source line 204); `pop` on the
never-empty split result is the last segment. -/
def regionOf (address : String) : String :=
  String.mk (jsTrim ((splitOnComma address.data).getLastD []))

/-- The state cleared at the top of `handleSubmit` (source lines 155–162). -/
def clearedState : AppState :=
  { estimate := none, monthlyData := [], weatherData := none,
    costEstimate := none, mapCoordinates := none, historicalWeather := none,
    incentives := [], error := none }

/-- The body of `handleSubmit` as a pure function of the user input and the
four collaborator responses.  Each early return models a thrown exception
reaching the outer `catch`, which records the message in the `error` state;
state set before the throw (the map coordinates, and for a late throw the
annual estimate and the incentives) is kept, exactly as in the source. -/
def handleSubmit (inp : EstimateInput) (api : Collaborators) : AppState :=
  match api.geocode with
  | .error msg => { clearedState with error := some msg }
  | .ok [] =>
      { clearedState with
        error := some "Unable to find coordinates for the given address" }
  | .ok ((lat, lon) :: _) =>
    let size := systemSizeKW inp.annualConsumption averageSunHoursPerDay
      averageSystemEfficiency
    match api.nrel with
    | .error msg =>
        { clearedState with mapCoordinates := some (lat, lon), error := some msg }
    | .ok nrelData =>
      if nrelData.errors.length > 0 then
        { clearedState with
          mapCoordinates := some (lat, lon),
          error := some ("Error fetching solar data: " ++
            String.intercalate ", " nrelData.errors) }
      else
        match nrelData.outputs with
        | none =>
            { clearedState with
              mapCoordinates := some (lat, lon),
              error := some "Cannot read properties of undefined (reading 'ac_annual')" }
        | some outputs =>
          let annualProduction := optToJS outputs.ac_annual
          let cost := estimatedCost size averageCostPerWatt
          let savings := jsMul annualProduction (.fin averageElectricityRate)
          let payback := paybackPeriodOf cost savings
          let recommendedPanels : ℤ := ⌈size * 1000 / panelWattage⌉
          let inc := calculateIncentives cost (regionOf inp.address)
          let totalIncentives := inc.2
          let adjustedCost := jsSub (.fin cost) totalIncentives
          let adjustedPayback := adjustedPaybackPeriodOf adjustedCost savings
          match outputs.ac_monthly with
          | none =>
              { clearedState with
                mapCoordinates := some (lat, lon),
                estimate := some (jsRound annualProduction),
                incentives := inc.1,
                error := some "Cannot read properties of undefined (reading 'map')" }
          | some acMonthly =>
              { estimate := some (jsRound annualProduction)
                monthlyData := chartRows acMonthly
                weatherData := weatherViewOf api.weather
                costEstimate := some
                  { installationCost := round cost
                    adjustedInstallationCost := jsRound adjustedCost
                    paybackPeriod :=
                      if payback = .posInf then "Infinity" else jsToFixed 1 payback
                    adjustedPaybackPeriod :=
                      if adjustedPayback = .posInf then "Infinity"
                      else jsToFixed 1 adjustedPayback
                    annualSavings := jsRound savings
                    systemSizeKW := jsToFixed 2 (.fin size)
                    recommendedPanels := recommendedPanels
                    recommendedSystemSize := jsToFixed 2 (.fin size)
                    recommendedProduction := jsRound annualProduction
                    totalIncentives := jsRound totalIncentives }
                mapCoordinates := some (lat, lon)
                historicalWeather := historicalOf api.historical
                incentives := inc.1
                error := none }

/-! ## Backend endpoint (`src/unnamed/part_000`) -/

/-- The `/api/estimate` handler: it destructures `address` and `roofArea`
from the request body and responds with
`Math.round(Math.random() * 5000 + 2000)`; `randomDraw` models the value
returned by `Math.random()` in `[0, 1)`. -/
def apiEstimate (address roofArea : String) (randomDraw : ℚ) : ℤ :=
  round (randomDraw * 5000 + 2000)


/-! ## Claim C5: sizing formula and monotonicity -/

/-- **C5.** For all strictly positive consumption `C`, sun-hours `S` and
efficiency `E`, the computed capacity equals `C / 365 / S / E`, and capacity
is strictly increasing in `C` and strictly decreasing in `S` and in `E`. -/
theorem C5_sizing_formula_monotone (C S E C' S' E' : ℚ)
    (hC : 0 < C) (hS : 0 < S) (hE : 0 < E) :
    systemSizeKW C S E = C / 365 / S / E
    ∧ (C < C' → systemSizeKW C S E < systemSizeKW C' S E)
    ∧ (S < S' → systemSizeKW C S' E < systemSizeKW C S E)
    ∧ (E < E' → systemSizeKW C S E' < systemSizeKW C S E) := by
  refine ⟨rfl, ?_, ?_, ?_⟩ <;> intro hlt <;> simp only [systemSizeKW, div_div]
  · exact (div_lt_div_iff_of_pos_right (by positivity)).mpr hlt
  · exact div_lt_div_of_pos_left hC (by positivity) (by gcongr)
  · exact div_lt_div_of_pos_left hC (by positivity) (by gcongr)

/-- Witness for C5 at consumption 10000→20000, sun-hours 4→5,
efficiency 0.75→1. -/
theorem C5_witness :
    systemSizeKW 10000 4 (75/100) = 10000 / 365 / 4 / (75/100)
    ∧ ((10000 : ℚ) < 20000 →
        systemSizeKW 10000 4 (75/100) < systemSizeKW 20000 4 (75/100))
    ∧ ((4 : ℚ) < 5 →
        systemSizeKW 10000 5 (75/100) < systemSizeKW 10000 4 (75/100))
    ∧ ((75/100 : ℚ) < 1 →
        systemSizeKW 10000 4 1 < systemSizeKW 10000 4 (75/100)) :=
  C5_sizing_formula_monotone 10000 4 (75/100) 20000 5 1
    (by norm_num) (by norm_num) (by norm_num)

/-! ## Claim C9: financial model formulas -/

/-- **C9.** For every capacity, production, cost-per-watt, rate and incentive
total: `installation_cost = capacity_kw * 1000 * cost_per_watt`,
`annual_savings = annual_production * electricity_rate`, and
`adjusted_cost = installation_cost - total_incentives` with no floor at zero:
when the incentive total exceeds the installation cost the negative adjusted
cost passes through unchanged. -/
theorem C9_financial_formulas (cap cpw prod rate inc : ℚ) :
    estimatedCost cap cpw = cap * 1000 * cpw
    ∧ jsMul (.fin prod) (.fin rate) = .fin (prod * rate)
    ∧ jsSub (.fin (estimatedCost cap cpw)) (.fin inc)
        = .fin (estimatedCost cap cpw - inc)
    ∧ (estimatedCost cap cpw < inc →
        jsSub (.fin (estimatedCost cap cpw)) (.fin inc)
          = .fin (estimatedCost cap cpw - inc)
        ∧ estimatedCost cap cpw - inc < 0) :=
  ⟨rfl, rfl, rfl, fun h => ⟨rfl, by linarith⟩⟩

/-- Witness for C9: capacity 1 kW at 1 $/W costs 1000; a 2000 incentive total
drives the adjusted cost to the negative value −1000. -/
theorem C9_witness :
    jsSub (.fin (estimatedCost 1 1)) (.fin 2000) = .fin (estimatedCost 1 1 - 2000)
    ∧ estimatedCost 1 1 - 2000 < 0 :=
  (C9_financial_formulas 1 1 1 1 2000).2.2.2 (by norm_num [estimatedCost])

/-! ## Claim C1: payback-period unboundedness rules -/

/-- **C1 (amended).** The baseline payback period is the distinguished
unbounded value `Infinity` iff the annual savings are non-positive, and equals
`cost / savings` otherwise.  The adjusted payback period, however, is computed
as `adjusted_cost / savings` with no guard: for positive savings it equals
`adjusted_cost / savings`; for strictly negative savings it is that same
finite quotient (not the unbounded value); and for zero savings it is
`Infinity`, `-Infinity` or `NaN` according to the sign of the adjusted
cost. -/
theorem C1_payback_rules (c a s : ℚ) :
    (paybackPeriodOf c (.fin s) = .posInf ↔ s ≤ 0)
    ∧ (0 < s → paybackPeriodOf c (.fin s) = .fin (c / s))
    ∧ (0 < s → adjustedPaybackPeriodOf (.fin a) (.fin s) = .fin (a / s))
    ∧ (s < 0 → adjustedPaybackPeriodOf (.fin a) (.fin s) = .fin (a / s))
    ∧ adjustedPaybackPeriodOf (.fin a) (.fin 0)
        = if 0 < a then .posInf else if a < 0 then .negInf else .nan := by
  refine ⟨?_, ?_, ?_, ?_, ?_⟩
  · constructor
    · intro h
      by_contra hs
      rw [not_le] at hs
      rw [(by simp [paybackPeriodOf, jsGt, jsDiv, JSVal.toNum, hs, ne_of_gt hs] :
        paybackPeriodOf c (.fin s) = .fin (c / s))] at h
      exact JSVal.noConfusion h
    · intro hs
      simp [paybackPeriodOf, jsGt, JSVal.toNum, not_lt.mpr hs]
  · intro hs
    simp [paybackPeriodOf, jsGt, jsDiv, JSVal.toNum, hs, ne_of_gt hs]
  · intro hs
    simp [adjustedPaybackPeriodOf, jsDiv, JSVal.toNum, ne_of_gt hs]
  · intro hs
    simp [adjustedPaybackPeriodOf, jsDiv, JSVal.toNum, ne_of_lt hs]
  · simp [adjustedPaybackPeriodOf, jsDiv, JSVal.toNum]

/-- Witness for C1 at cost 25290, adjusted cost 16703, savings 1680. -/
theorem C1_payback_rules_witness :
    ((0:ℚ) < 1680 → paybackPeriodOf 25290 (.fin 1680) = .fin (25290 / 1680))
    ∧ ((0:ℚ) < 1680 →
        adjustedPaybackPeriodOf (.fin 16703) (.fin 1680) = .fin (16703 / 1680)) :=
  ⟨(C1_payback_rules 25290 16703 1680).2.1,
   (C1_payback_rules 25290 16703 1680).2.2.1⟩

/-- **C1 counterexample.** Capacity 0 at the default cost-per-watt gives
installation cost 0; production 0 at the default rate gives savings 0 ≤ 0; an
incentive total of 1000 gives adjusted cost −1000, and the adjusted payback
period evaluates to `-Infinity`, which is not the distinguished unbounded
value — so the adjusted variant does not follow the savings ≤ 0 rule. -/
theorem C1_counterexample :
    ¬ (adjustedPaybackPeriodOf
          (jsSub (.fin (estimatedCost 0 averageCostPerWatt)) (.fin 1000))
          (jsMul (.fin 0) (.fin averageElectricityRate)) = .posInf
        ↔ (0 : ℚ) * averageElectricityRate ≤ 0) := by
  intro hiff
  have h1 : (0 : ℚ) * averageElectricityRate ≤ 0 := by norm_num
  have h2 : adjustedPaybackPeriodOf
      (jsSub (.fin (estimatedCost 0 averageCostPerWatt)) (.fin 1000))
      (jsMul (.fin 0) (.fin averageElectricityRate)) = .negInf := by
    norm_num [adjustedPaybackPeriodOf, jsDiv, jsSub, jsMul, JSVal.toNum,
      estimatedCost, averageCostPerWatt, averageElectricityRate]
  rw [h2] at hiff
  exact JSVal.noConfusion (hiff.mpr h1)

/-! ## Claim C10: determinism of the engine vs the random endpoint -/

/-- **C10 (amended).** The front-end estimation computation is deterministic:
it is a pure function of the user input and the four collaborator responses,
so two runs on equal arguments deliver identical result states.  The
`/api/estimate` endpoint, however, responds with
`Math.round(Math.random() * 5000 + 2000)`: its production figure depends on
the random draw (2000 for draw 0, 4500 for draw 1/2) and not on the
request. -/
theorem C10_determinism :
    (∀ (inp₁ inp₂ : EstimateInput) (api₁ api₂ : Collaborators),
        inp₁ = inp₂ → api₁ = api₂ →
        handleSubmit inp₁ api₁ = handleSubmit inp₂ api₂)
    ∧ apiEstimate "1 Solar Way, CA" "40" 0 = 2000
    ∧ apiEstimate "1 Solar Way, CA" "40" (1/2) = 4500 := by
  refine ⟨?_, by norm_num [apiEstimate, round_eq], by norm_num [apiEstimate, round_eq]⟩
  intro inp₁ inp₂ api₁ api₂ h1 h2
  rw [h1, h2]

/-- Witness for C10: two identical runs on a concrete input and concrete
responses deliver the same state. -/
theorem C10_determinism_witness :
    handleSubmit
      (EstimateInput.mk "1 Solar Way, CA" 10000 180 20)
      (Collaborators.mk (.ok [(37, -122)])
        (.ok (NrelResponse.mk []
          (some (NrelOutputs.mk (some 12000) (some [1,1,1,1,1,1,1,1,1,1,1,1])))))
        (.error "offline") (.error "offline"))
    = handleSubmit
      (EstimateInput.mk "1 Solar Way, CA" 10000 180 20)
      (Collaborators.mk (.ok [(37, -122)])
        (.ok (NrelResponse.mk []
          (some (NrelOutputs.mk (some 12000) (some [1,1,1,1,1,1,1,1,1,1,1,1])))))
        (.error "offline") (.error "offline")) :=
  C10_determinism.1 _ _ _ _ rfl rfl

/-- **C10 counterexample.** The endpoint's response is not a function of its
request alone: the same request with two different random draws produces two
different production estimates. -/
theorem C10_counterexample :
    apiEstimate "1 Solar Way, CA" "40" 0 ≠ apiEstimate "1 Solar Way, CA" "40" (1/2) := by
  have h0 : apiEstimate "1 Solar Way, CA" "40" 0 = 2000 := by
    norm_num [apiEstimate, round_eq]
  have h1 : apiEstimate "1 Solar Way, CA" "40" (1/2) = 4500 := by
    norm_num [apiEstimate, round_eq]
  rw [h0, h1]
  norm_num

/-! ## Claim C6: incentive matching and application -/

/-- Characterization of the `calculateIncentives` fold: it appends one applied
record per matching incentive, in order, and accumulates the total by
repeated addition over the same amounts. -/
lemma calculateIncentives_foldl (cost : ℚ) (l : List Incentive)
    (acc : List AppliedIncentive × JSVal) :
    (l.foldl (fun acc incentive =>
        let amt := incentiveAmount cost incentive
        (acc.1 ++ [⟨incentive, amt⟩], jsAdd acc.2 amt)) acc)
      = (acc.1 ++ l.map (fun i => ⟨i, incentiveAmount cost i⟩),
         (l.map (fun i => incentiveAmount cost i)).foldl jsAdd acc.2) := by
  induction l generalizing acc with
  | nil => simp
  | cons i is ih => simp [ih]

/-- `calculateIncentives` in closed form. -/
lemma calculateIncentives_eq (cost : ℚ) (st : String) :
    calculateIncentives cost st
      = ((findIncentives st).map (fun i => ⟨i, incentiveAmount cost i⟩),
         ((findIncentives st).map (fun i => incentiveAmount cost i)).foldl
           jsAdd (.fin 0)) := by
  unfold calculateIncentives
  rw [calculateIncentives_foldl]
  simp

/-- **C6.** Matching selects exactly the catalog records whose region code is
equal (case-sensitive string equality) to the given code, in catalog order
(the match list is a sublist of the catalog); each applied amount is the flat
magnitude for a rebate and exactly `fraction × installation_cost` for a tax
credit; the returned total is the fold of the applied amounts; the output
order mirrors the match order; and an empty match set yields the empty
sequence and the zero total. -/
theorem C6_incentive_matching (st : String) (cost : ℚ) :
    (∀ i, i ∈ findIncentives st ↔ i ∈ incentivesDatabase ∧ i.state = st)
    ∧ (findIncentives st).Sublist incentivesDatabase
    ∧ ((calculateIncentives cost st).1.map (fun a => a.incentive)
        = findIncentives st)
    ∧ (∀ a ∈ (calculateIncentives cost st).1,
        (a.incentive.type = "rebate" → a.appliedAmount = .fin a.incentive.amount)
        ∧ (a.incentive.type = "taxCredit" →
            a.appliedAmount = .fin (cost * a.incentive.amount)))
    ∧ ((calculateIncentives cost st).2
        = ((calculateIncentives cost st).1.map
            (fun a => a.appliedAmount)).foldl jsAdd (.fin 0))
    ∧ (findIncentives st = [] → calculateIncentives cost st = ([], .fin 0)) := by
  refine ⟨?_, ?_, ?_, ?_, ?_, ?_⟩
  · intro i
    simp [findIncentives, List.mem_filter]
  · exact List.filter_sublist incentivesDatabase
  · rw [calculateIncentives_eq]
    simp only [List.map_map]
    exact (List.map_congr_left fun a _ => rfl).trans (List.map_id _)
  · intro a ha
    rw [calculateIncentives_eq] at ha
    simp only [List.mem_map] at ha
    obtain ⟨i, _, rfl⟩ := ha
    constructor
    · intro hty
      have hty' : i.type = "rebate" := hty
      simp [incentiveAmount, hty']
    · intro hty
      have hty' : i.type = "taxCredit" := hty
      simp [incentiveAmount, hty', mul_comm]
  · rw [calculateIncentives_eq]
    simp only [List.map_map]
    congr 1
  · intro h
    rw [calculateIncentives_eq, h]
    simp

/-- Witness for C6: the CA tax credit applied at installation cost 25290
carries exactly `25290 × 0.30`. -/
theorem C6_witness :
    (AppliedIncentive.mk
      (Incentive.mk "CA" "taxCredit" (30/100) "Federal Solar Investment Tax Credit")
      (.fin (25290 * (30/100)))).appliedAmount
      = .fin ((25290 : ℚ) * ((30:ℚ)/100)) := by
  have hmem : (AppliedIncentive.mk
      (Incentive.mk "CA" "taxCredit" (30/100) "Federal Solar Investment Tax Credit")
      (.fin (25290 * (30/100)))) ∈ (calculateIncentives 25290 "CA").1 := by
    rw [calculateIncentives_eq]
    simp [findIncentives, incentivesDatabase, incentiveAmount]
  exact ((C6_incentive_matching "CA" 25290).2.2.2.1 _ hmem).2 rfl

/-! ## Claims C7 and C8: climate aggregation -/

/-- The single pass over the samples preserves the accumulator count of
twelve. -/
lemma length_foldl_addDay (samples : List DaySample) (acc : List MonthAccum) :
    (samples.foldl addDay acc).length = acc.length := by
  induction samples generalizing acc with
  | nil => rfl
  | cons s ss ih => simp [List.foldl_cons, ih, addDay, List.length_set]

/-- `getD` after `set` at the written index. -/
lemma getD_set_self (l : List MonthAccum) (i : ℕ) (a d : MonthAccum)
    (h : i < l.length) : (l.set i a).getD i d = a := by
  rw [List.getD_eq_getD_get?, List.get?_eq_getElem?, List.getElem?_set_eq_of_lt a h]
  rfl

/-- `getD` after `set` at a different index. -/
lemma getD_set_ne (l : List MonthAccum) (i j : ℕ) (a d : MonthAccum)
    (h : i ≠ j) : (l.set i a).getD j d = l.getD j d := by
  rw [List.getD_eq_getD_get?, List.getD_eq_getD_get?, List.get?_eq_getElem?,
    List.get?_eq_getElem?, List.getElem?_set_ne h]

/-- After the pass, month `i`'s accumulator holds the initial values plus the
sum of temperatures, the sum of UV indices, and the number of the samples
whose month is `i`. -/
lemma getD_foldl_addDay (samples : List DaySample) (acc : List MonthAccum)
    (i : ℕ) (hi : i < acc.length) :
    (samples.foldl addDay acc).getD i ⟨0,0,0⟩ =
      ⟨(acc.getD i ⟨0,0,0⟩).temperature
          + ((samples.filter (fun s => s.month.val = i)).map DaySample.temp).sum,
       (acc.getD i ⟨0,0,0⟩).solarRadiation
          + ((samples.filter (fun s => s.month.val = i)).map DaySample.uvi).sum,
       (acc.getD i ⟨0,0,0⟩).count
          + (samples.filter (fun s => s.month.val = i)).length⟩ := by
  induction samples generalizing acc with
  | nil => simp
  | cons s ss ih =>
    rw [List.foldl_cons, ih (addDay acc s) (by simp [addDay, List.length_set]; exact hi)]
    by_cases hm : s.month.val = i
    · have hupd : (addDay acc s).getD i ⟨0,0,0⟩ =
          ⟨(acc.getD i ⟨0,0,0⟩).temperature + s.temp,
           (acc.getD i ⟨0,0,0⟩).solarRadiation + s.uvi,
           (acc.getD i ⟨0,0,0⟩).count + 1⟩ := by
        simp only [addDay, hm]
        exact getD_set_self acc i _ _ hi
      rw [hupd]
      simp [hm, add_assoc]
      omega
    · have hupd : (addDay acc s).getD i ⟨0,0,0⟩ = acc.getD i ⟨0,0,0⟩ := by
        simp only [addDay]
        exact getD_set_ne acc s.month.val i _ _ hm
      rw [hupd]
      simp [hm]

/-- Closed form of the climate aggregation: one row per calendar month with
the rounded mean (or zero) of the samples falling in that month. -/
lemma processHistoricalWeatherData_eq (samples : List DaySample) :
    processHistoricalWeatherData samples = (List.range 12).map (fun i =>
      { month := monthNames.getD i ""
        temperature :=
          if 0 < (samples.filter (fun s => s.month.val = i)).length
          then roundTo1 (((samples.filter (fun s => s.month.val = i)).map DaySample.temp).sum
            / (samples.filter (fun s => s.month.val = i)).length)
          else 0
        solarRadiation :=
          if 0 < (samples.filter (fun s => s.month.val = i)).length
          then roundTo1 (((samples.filter (fun s => s.month.val = i)).map DaySample.uvi).sum
            / (samples.filter (fun s => s.month.val = i)).length)
          else 0 }) := by
  unfold processHistoricalWeatherData
  apply List.map_congr_left
  intro i hi
  rw [List.mem_range] at hi
  have hlen : i < (List.replicate 12 (⟨0,0,0⟩ : MonthAccum)).length := by simpa using hi
  have hrep : (List.replicate 12 (⟨0,0,0⟩ : MonthAccum)).getD i ⟨0,0,0⟩ = ⟨0,0,0⟩ := by
    rw [List.getD_eq_getElem _ _ hlen]
    exact List.getElem_replicate _ hlen
  rw [getD_foldl_addDay samples (List.replicate 12 ⟨0,0,0⟩) i hlen, hrep]
  simp

/-- **C8.** Climate aggregation is permutation-invariant: aggregating any
permutation of a sample sequence yields entry-for-entry the same monthly
summary. -/
theorem C8_permutation_invariance (l l' : List DaySample) (h : l.Perm l') :
    processHistoricalWeatherData l = processHistoricalWeatherData l' := by
  rw [processHistoricalWeatherData_eq, processHistoricalWeatherData_eq]
  apply List.map_congr_left
  intro i _
  have hf : (l.filter (fun s => s.month.val = i)).Perm
      (l'.filter (fun s => s.month.val = i)) := h.filter _
  rw [hf.length_eq, (hf.map DaySample.temp).sum_eq, (hf.map DaySample.uvi).sum_eq]

/-- Witness for C8: swapping two concrete daily samples leaves the summary
unchanged. -/
theorem C8_witness :
    processHistoricalWeatherData [⟨0, 10, 5⟩, ⟨5, 30, 9⟩]
      = processHistoricalWeatherData [⟨5, 30, 9⟩, ⟨0, 10, 5⟩] :=
  C8_permutation_invariance _ _ (List.Perm.swap _ _ _)

/-- **C7.** The climate aggregation always returns exactly 12 entries in
calendar order; entry `i` holds the month's name and the arithmetic mean of
the temperatures and UV indices of the samples falling in month `i`, rounded
to one decimal place, when that month has at least one sample, and `0` when
it has none; the empty input yields the twelve named all-zero rows. -/
theorem C7_climate_aggregation (samples : List DaySample) :
    (processHistoricalWeatherData samples).length = 12
    ∧ processHistoricalWeatherData []
        = monthNames.map (fun n => { month := n, temperature := 0, solarRadiation := 0 })
    ∧ (∀ i : ℕ, i < 12 →
        (processHistoricalWeatherData samples).getD i ⟨"", 0, 0⟩ =
          { month := monthNames.getD i ""
            temperature :=
              if 0 < (samples.filter (fun s => s.month.val = i)).length
              then roundTo1 (((samples.filter (fun s => s.month.val = i)).map DaySample.temp).sum
                / (samples.filter (fun s => s.month.val = i)).length)
              else 0
            solarRadiation :=
              if 0 < (samples.filter (fun s => s.month.val = i)).length
              then roundTo1 (((samples.filter (fun s => s.month.val = i)).map DaySample.uvi).sum
                / (samples.filter (fun s => s.month.val = i)).length)
              else 0 }) := by
  refine ⟨?_, rfl, ?_⟩
  · rw [processHistoricalWeatherData_eq]
    simp
  · intro i hi
    rw [processHistoricalWeatherData_eq]
    rw [List.getD_eq_getElem _ _ (by simpa using hi)]
    simp

/-- Witness for C7: one January sample of 10 °C and UV 5. -/
theorem C7_witness :
    (processHistoricalWeatherData [⟨0, 10, 5⟩]).getD 0 ⟨"", 0, 0⟩ =
      { month := monthNames.getD 0 ""
        temperature :=
          if 0 < (([⟨0, 10, 5⟩] : List DaySample).filter (fun s => s.month.val = 0)).length
          then roundTo1 (((([⟨0, 10, 5⟩] : List DaySample).filter
              (fun s => s.month.val = 0)).map DaySample.temp).sum
            / (([⟨0, 10, 5⟩] : List DaySample).filter (fun s => s.month.val = 0)).length)
          else 0
        solarRadiation :=
          if 0 < (([⟨0, 10, 5⟩] : List DaySample).filter (fun s => s.month.val = 0)).length
          then roundTo1 (((([⟨0, 10, 5⟩] : List DaySample).filter
              (fun s => s.month.val = 0)).map DaySample.uvi).sum
            / (([⟨0, 10, 5⟩] : List DaySample).filter (fun s => s.month.val = 0)).length)
          else 0 } :=
  (C7_climate_aggregation [⟨0, 10, 5⟩]).2.2 0 (by norm_num)

/-! ## Claims C2, C3, C4: orchestration, sizing validation, production
interpretation -/

/-- Projecting the chart rows onto their production values recovers the
monthly sequence with each entry rounded (`Math.round`), in order. -/
lemma chartRows_production (l : List ℚ) :
    (chartRows l).map (fun r => r.production) = l.map (fun value => round value) := by
  rw [chartRows, List.mapIdx_eq_enum_map, List.map_map]
  rw [show ((fun r => r.production) ∘ Function.uncurry fun index value =>
      ChartRow.mk (monthNames.get? index) (round value))
      = (fun value : ℚ => round value) ∘ Prod.snd from rfl]
  rw [← List.map_map, List.enum_map_snd]

/-- The chart has exactly one row per monthly value. -/
lemma chartRows_length (l : List ℚ) : (chartRows l).length = l.length := by
  rw [chartRows, List.mapIdx_eq_enum_map]
  simp

/-- The branch taken when the provider reports a non-empty `errors` array:
the run aborts with the joined messages. -/
lemma handleSubmit_nrel_errs (inp : EstimateInput) (w : Except String WeatherJson)
    (hist : Except String HistJson) (lat lon : ℚ) (rest : List (ℚ × ℚ))
    (e : String) (es : List String) (out : Option NrelOutputs) :
    handleSubmit inp ⟨.ok ((lat, lon) :: rest), .ok ⟨e :: es, out⟩, w, hist⟩
      = { clearedState with
          mapCoordinates := some (lat, lon),
          error := some ("Error fetching solar data: "
            ++ String.intercalate ", " (e :: es)) } := by
  show (if (0 < (e :: es).length) then _ else _) = _
  rw [if_pos (by simp)]

/-- **C2 (amended).** A mandatory-path failure at geocoding, at the
upstream-error check, at the transport level, or at the annual-field access
aborts the run with only the error (and, after geocoding, the map
coordinates) set — every result field of `clearedState` is still empty.  A
failure at the monthly-series access, however, happens after the annual
estimate and the incentives have been stored: those two fields stay populated
in the delivered state alongside the error, so the abort is not clean there.
Sizing and costing are pure arithmetic and cannot fail. -/
theorem C2_failure_isolation (inp : EstimateInput)
    (w : Except String WeatherJson) (hist : Except String HistJson)
    (lat lon : ℚ) (rest : List (ℚ × ℚ)) :
    (∀ msg n, handleSubmit inp ⟨.error msg, n, w, hist⟩
        = { clearedState with error := some msg })
    ∧ (∀ n, handleSubmit inp ⟨.ok [], n, w, hist⟩
        = { clearedState with
            error := some "Unable to find coordinates for the given address" })
    ∧ (∀ msg, handleSubmit inp ⟨.ok ((lat, lon) :: rest), .error msg, w, hist⟩
        = { clearedState with mapCoordinates := some (lat, lon), error := some msg })
    ∧ (∀ e es out, handleSubmit inp ⟨.ok ((lat, lon) :: rest), .ok ⟨e :: es, out⟩, w, hist⟩
        = { clearedState with
            mapCoordinates := some (lat, lon),
            error := some ("Error fetching solar data: "
              ++ String.intercalate ", " (e :: es)) })
    ∧ (handleSubmit inp ⟨.ok ((lat, lon) :: rest), .ok ⟨[], none⟩, w, hist⟩
        = { clearedState with
            mapCoordinates := some (lat, lon),
            error := some "Cannot read properties of undefined (reading 'ac_annual')" })
    ∧ (∀ ann, handleSubmit inp ⟨.ok ((lat, lon) :: rest), .ok ⟨[], some ⟨ann, none⟩⟩, w, hist⟩
        = { clearedState with
            mapCoordinates := some (lat, lon),
            estimate := some (jsRound (optToJS ann)),
            incentives := (calculateIncentives
              (estimatedCost (systemSizeKW inp.annualConsumption averageSunHoursPerDay
                averageSystemEfficiency) averageCostPerWatt) (regionOf inp.address)).1,
            error := some "Cannot read properties of undefined (reading 'map')" }) := by
  exact ⟨fun _ _ => rfl, fun _ => rfl, fun _ => rfl,
    fun e es out => handleSubmit_nrel_errs inp w hist lat lon rest e es out,
    rfl, fun _ => rfl⟩

/-- **C2 counterexample.** With a response whose `outputs` carries an annual
figure but no monthly array, the run fails (the error is set), yet the annual
production estimate and the matched incentives are populated in the delivered
result — a partial estimate accompanies the failure. -/
theorem C2_counterexample :
    (handleSubmit (EstimateInput.mk "123 Main St, CA" 10000 180 20)
      (Collaborators.mk (.ok [(37, -122)])
        (.ok (NrelResponse.mk [] (some (NrelOutputs.mk (some 12000) none))))
        (.error "offline") (.error "offline"))).error
      = some "Cannot read properties of undefined (reading 'map')"
    ∧ (handleSubmit (EstimateInput.mk "123 Main St, CA" 10000 180 20)
      (Collaborators.mk (.ok [(37, -122)])
        (.ok (NrelResponse.mk [] (some (NrelOutputs.mk (some 12000) none))))
        (.error "offline") (.error "offline"))).estimate.isSome = true
    ∧ (handleSubmit (EstimateInput.mk "123 Main St, CA" 10000 180 20)
      (Collaborators.mk (.ok [(37, -122)])
        (.ok (NrelResponse.mk [] (some (NrelOutputs.mk (some 12000) none))))
        (.error "offline") (.error "offline"))).incentives ≠ [] := by
  refine ⟨rfl, rfl, ?_⟩
  show (calculateIncentives _ (regionOf "123 Main St, CA")).1 ≠ []
  rw [show regionOf "123 Main St, CA" = "CA" from rfl, calculateIncentives_eq]
  simp [findIncentives, incentivesDatabase]

/-- **C3 (amended).** The sizing step performs no input validation and never
fails: for every consumption value — zero and negative included — it computes
`consumption / 365 / sunHours / efficiency` (the sun-hours and efficiency
factors are the fixed positive constants 4 and 0.75), and the run proceeds to
a completed estimate. -/
theorem C3_no_sizing_validation (c sunHours efficiency : ℚ) :
    systemSizeKW c sunHours efficiency = c / 365 / sunHours / efficiency
    ∧ (0 : ℚ) < averageSunHoursPerDay
    ∧ (0 : ℚ) < averageSystemEfficiency
    ∧ (handleSubmit (EstimateInput.mk "1 Solar Way, CA" c 180 20)
        (Collaborators.mk (.ok [(37, -122)])
          (.ok (NrelResponse.mk [] (some (NrelOutputs.mk (some 12000)
            (some [1,1,1,1,1,1,1,1,1,1,1,1])))))
          (.error "offline") (.error "offline"))).error = none
    ∧ (handleSubmit (EstimateInput.mk "1 Solar Way, CA" c 180 20)
        (Collaborators.mk (.ok [(37, -122)])
          (.ok (NrelResponse.mk [] (some (NrelOutputs.mk (some 12000)
            (some [1,1,1,1,1,1,1,1,1,1,1,1])))))
          (.error "offline") (.error "offline"))).costEstimate.isSome = true :=
  ⟨rfl, by norm_num [averageSunHoursPerDay], by norm_num [averageSystemEfficiency],
   rfl, rfl⟩

/-- **C3 counterexample.** With annual consumption 0 — not strictly positive —
the sizing step does not fail with `InvalidInput`: the estimation completes
with no error and a populated cost estimate. -/
theorem C3_counterexample :
    (handleSubmit (EstimateInput.mk "1 Solar Way, CA" 0 180 20)
      (Collaborators.mk (.ok [(37, -122)])
        (.ok (NrelResponse.mk [] (some (NrelOutputs.mk (some 12000)
          (some [1,1,1,1,1,1,1,1,1,1,1,1])))))
        (.error "offline") (.error "offline"))).error = none
    ∧ (handleSubmit (EstimateInput.mk "1 Solar Way, CA" 0 180 20)
      (Collaborators.mk (.ok [(37, -122)])
        (.ok (NrelResponse.mk [] (some (NrelOutputs.mk (some 12000)
          (some [1,1,1,1,1,1,1,1,1,1,1,1])))))
        (.error "offline") (.error "offline"))).costEstimate.isSome = true :=
  ⟨rfl, rfl⟩

/-- **C4 (amended).** A non-empty explicit error list makes the run fail with
the joined error messages (prefixed `Error fetching solar data: `); an absent
`outputs` object fails with an engine `TypeError`; an absent monthly array
fails with an engine `TypeError` only after partial results are stored.  No
further shape validation exists: with `outputs` present the annual field may
be absent (the run then completes on `NaN` values rather than failing), and a
monthly array of any length — 12 or not — is accepted, producing one chart
row per element with the values `Math.round`ed in their original order. -/
theorem C4_production_interpretation (inp : EstimateInput)
    (w : Except String WeatherJson) (hist : Except String HistJson)
    (lat lon : ℚ) (rest : List (ℚ × ℚ)) :
    (∀ e es out,
        (handleSubmit inp ⟨.ok ((lat, lon) :: rest), .ok ⟨e :: es, out⟩, w, hist⟩).error
          = some ("Error fetching solar data: " ++ String.intercalate ", " (e :: es)))
    ∧ ((handleSubmit inp ⟨.ok ((lat, lon) :: rest), .ok ⟨[], none⟩, w, hist⟩).error
        = some "Cannot read properties of undefined (reading 'ac_annual')")
    ∧ (∀ ann,
        (handleSubmit inp ⟨.ok ((lat, lon) :: rest), .ok ⟨[], some ⟨ann, none⟩⟩, w, hist⟩).error
          = some "Cannot read properties of undefined (reading 'map')")
    ∧ (∀ ann l,
        (handleSubmit inp ⟨.ok ((lat, lon) :: rest), .ok ⟨[], some ⟨ann, some l⟩⟩, w, hist⟩).error
          = none
        ∧ (handleSubmit inp
            ⟨.ok ((lat, lon) :: rest), .ok ⟨[], some ⟨ann, some l⟩⟩, w, hist⟩).monthlyData
          = chartRows l
        ∧ (chartRows l).length = l.length
        ∧ (chartRows l).map (fun r => r.production) = l.map (fun value => round value)) := by
  refine ⟨?_, rfl, fun _ => rfl,
    fun ann l => ⟨rfl, rfl, chartRows_length l, chartRows_production l⟩⟩
  intro e es out
  rw [handleSubmit_nrel_errs inp w hist lat lon rest e es out]

/-- **C4 counterexample.** A well-formed-but-short monthly array of 3 entries
does not fail with `MalformedResponse`: the run completes with no error and a
3-row monthly series. -/
theorem C4_counterexample :
    (handleSubmit (EstimateInput.mk "1 Solar Way, CA" 10000 180 20)
      (Collaborators.mk (.ok [(37, -122)])
        (.ok (NrelResponse.mk [] (some (NrelOutputs.mk (some 12000) (some [1, 2, 3])))))
        (.error "offline") (.error "offline"))).error = none
    ∧ (handleSubmit (EstimateInput.mk "1 Solar Way, CA" 10000 180 20)
      (Collaborators.mk (.ok [(37, -122)])
        (.ok (NrelResponse.mk [] (some (NrelOutputs.mk (some 12000) (some [1, 2, 3])))))
        (.error "offline") (.error "offline"))).monthlyData.length = 3 :=
  ⟨rfl, rfl⟩
